import Mathlib

/-!
Verification of the XmsgBot core models against their specification.

The development shallowly embeds the scoring, matching and delivery-attempt
logic of `src/models/Tweet.js` and `src/models/Subscription.js` (the
`PushRecord` schema methods live in the latter file).  JavaScript strings are
modelled as lists of characters, JS numbers used as timestamps and weights as
real numbers, and engagement counters as natural numbers.
-/

namespace XmsgBot

/-- JavaScript strings, modelled as lists of characters. -/
abbrev Str := List Char

/-- `String.prototype.toLowerCase`, character by character. -/
def toLowerStr (s : Str) : Str := s.map Char.toLower

/-- Whether `hay` starts with `needle` (helper for substring search). -/
def leadMatch : Str → Str → Bool
  | _, [] => true
  | [], _ :: _ => false
  | c :: cs, d :: ds => c == d && leadMatch cs ds

/-- `String.prototype.includes`: `needle` occurs contiguously in `hay`. -/
def strContains : Str → Str → Bool
  | [], needle => needle.isEmpty
  | c :: t, needle => leadMatch (c :: t) needle || strContains t needle

/-- Author sub-document of the tweet schema (`Tweet.js`). -/
structure Author where
  verified : Bool
  followers_count : ℕ

/-- `public_metrics` sub-document of the tweet schema. -/
structure PublicMetrics where
  retweet_count : ℕ
  like_count : ℕ
  reply_count : ℕ
  quote_count : ℕ

/-- `metadata` sub-document: creation time (ms since epoch) and language. -/
structure TweetMetadata where
  created_at : ℝ
  lang : Str

/-- `attachments` sub-document. -/
structure Attachments where
  media_keys : List Str

/-- `entities` sub-document (only the URL list is consulted by the core). -/
structure Entities where
  urls : List Str

/-- An ingested tweet, restricted to the fields the core logic reads. -/
structure Tweet where
  text : Str
  author : Author
  public_metrics : PublicMetrics
  metadata : TweetMetadata
  attachments : Attachments
  entities : Entities

/-- The age of a tweet in hours at instant `now`, as computed in
`calculateHotnessScore`: `(Date.now() - created_at.getTime()) / (1000*60*60)`.
No clamping is applied, so the value is negative for future-dated tweets. -/
noncomputable def ageInHours (now : ℝ) (t : Tweet) : ℝ :=
  (now - t.metadata.created_at) / (1000 * 60 * 60)

/-- `tweetSchema.methods.calculateHotnessScore`, translated statement by
statement: weighted engagement base, author-influence multiplier capped via
`min(followers/10000, 5)`, a ×1.2 boost for verified authors, exponential
age decay `exp(-age/24)`, and a final `Math.round`. -/
noncomputable def calculateHotnessScore (now : ℝ) (t : Tweet) : ℤ :=
  let metrics := t.public_metrics
  let age := ageInHours now t
  let baseScore : ℝ :=
    (metrics.like_count : ℝ) * 1 +
    (metrics.retweet_count : ℝ) * 2 +
    (metrics.reply_count : ℝ) * 1.5 +
    (metrics.quote_count : ℝ) * 1.8
  let authorWeight := min ((t.author.followers_count : ℝ) / 10000) 5
  let weighted := baseScore * (1 + authorWeight * 0.1)
  let boosted := if t.author.verified then weighted * 1.2 else weighted
  let timeDecay := Real.exp (-age / 24)
  round (boosted * timeDecay)

/-- Media / link requirement mode of a subscription filter
(`'any' | 'required' | 'excluded'`). -/
inductive ReqMode where
  | any
  | required
  | excluded
deriving DecidableEq, BEq

/-- `filters` sub-document of the subscription schema. -/
structure Filters where
  languages : List Str
  minLikes : ℕ
  minRetweets : ℕ
  minReplies : ℕ
  hasMedia : ReqMode
  hasLinks : ReqMode
  excludeKeywords : List Str

/-- `pushSettings.activeHours`: the delivery window in 0–23 local hours.
(`end` is a Lean keyword, hence the field name `endH`.) -/
structure ActiveHours where
  start : ℕ
  endH : ℕ

/-- A subscription, restricted to the fields the core logic reads. -/
structure Subscription where
  keywords : List Str
  filters : Filters
  activeHours : ActiveHours

/-- `subscriptionSchema.methods.matchesKeywords`: the lower-cased text must
contain some keyword (lower-cased) and no exclude keyword (lower-cased). -/
def matchesKeywords (s : Subscription) (text : Str) : Bool :=
  let lowerText := toLowerStr text
  let hasKeyword := s.keywords.any fun keyword =>
    strContains lowerText (toLowerStr keyword)
  if !hasKeyword then false
  else
    let hasExcludeKeyword := s.filters.excludeKeywords.any fun keyword =>
      strContains lowerText (toLowerStr keyword)
    !hasExcludeKeyword

/-- `subscriptionSchema.methods.matchesFilters`: engagement minimums, then the
media requirement mode, then the link requirement mode.  (The function never
consults `filters.languages`.) -/
def matchesFilters (s : Subscription) (t : Tweet) : Bool :=
  let filters := s.filters
  if t.public_metrics.like_count < filters.minLikes then false
  else if t.public_metrics.retweet_count < filters.minRetweets then false
  else if t.public_metrics.reply_count < filters.minReplies then false
  else
    let hasMedia := decide (0 < t.attachments.media_keys.length)
    if decide (filters.hasMedia = ReqMode.required) && !hasMedia then false
    else if decide (filters.hasMedia = ReqMode.excluded) && hasMedia then false
    else
      let hasLinks := decide (0 < t.entities.urls.length)
      if decide (filters.hasLinks = ReqMode.required) && !hasLinks then false
      else if decide (filters.hasLinks = ReqMode.excluded) && hasLinks then false
      else true

/-- `subscriptionSchema.methods.isInActiveHours`, with the current hour passed
explicitly (the source reads it from `new Date().getHours()`). -/
def isInActiveHours (s : Subscription) (currentHour : ℕ) : Bool :=
  let start := s.activeHours.start
  let stop := s.activeHours.endH
  if start ≤ stop then
    decide (start ≤ currentHour) && decide (currentHour ≤ stop)
  else
    decide (start ≤ currentHour) || decide (currentHour ≤ stop)

/-- Delivery status of a push record
(`'pending' | 'sending' | 'success' | 'failed' | 'cancelled'`). -/
inductive PRStatus where
  | pending
  | sending
  | success
  | failed
  | cancelled
deriving DecidableEq, BEq

/-- `pushConfig` sub-document: retry bookkeeping (`retryDelay` in seconds). -/
structure PushConfig where
  retryCount : ℕ
  maxRetries : ℕ
  retryDelay : ℕ

/-- `timing` sub-document (all times in ms since epoch, absent = `none`). -/
structure Timing where
  scheduledAt : Option ℝ
  startedAt : Option ℝ
  completedAt : Option ℝ
  duration : Option ℝ
  queueTime : Option ℝ

/-- `result` sub-document of a push record. -/
structure PRResult where
  messageId : Option Str
  deliveryTime : Option ℝ
  responseTime : Option ℝ
  errorCode : Option Str
  errorMessage : Option Str
  rawResponse : Option Str

/-- `interaction` sub-document of a push record. -/
structure Interaction where
  isRead : Bool
  readAt : Option ℝ
  isClicked : Bool
  clickedAt : Option ℝ
  clickCount : ℕ
  feedback : Option Str
  feedbackAt : Option ℝ

/-- One entry of the `retryHistory` array. -/
structure RetryEntry where
  attempt : ℕ
  timestamp : ℝ
  error : Str
  duration : ℝ

/-- A push record (delivery attempt), restricted to the fields the
lifecycle methods read or write. -/
structure PushRecord where
  status : PRStatus
  pushConfig : PushConfig
  timing : Timing
  result : PRResult
  interaction : Interaction
  retryHistory : List RetryEntry

/-- `pushRecordSchema.methods.markAsStarted`: set status to `sending`, record
`startedAt`, and derive `queueTime` when `scheduledAt` was set. -/
noncomputable def markAsStarted (now : ℝ) (r : PushRecord) : PushRecord :=
  let startedAt := now
  let queueTime :=
    match r.timing.scheduledAt with
    | some s => some (startedAt - s)
    | none => r.timing.queueTime
  { r with
    status := PRStatus.sending
    timing := { r.timing with startedAt := some startedAt, queueTime := queueTime } }

/-- `pushRecordSchema.methods.markAsSuccess`: set status to `success`, record
`completedAt`, derive `duration` when `startedAt` was set, and store the
provider result. -/
noncomputable def markAsSuccess (now : ℝ) (messageId : Str) (responseTime : ℝ)
    (rawResponse : Option Str) (r : PushRecord) : PushRecord :=
  let completedAt := now
  let duration :=
    match r.timing.startedAt with
    | some s => some (completedAt - s)
    | none => r.timing.duration
  { r with
    status := PRStatus.success
    timing := { r.timing with completedAt := some completedAt, duration := duration }
    result := { r.result with
      messageId := some messageId
      deliveryTime := some completedAt
      responseTime := some responseTime
      rawResponse := match rawResponse with
        | some x => some x
        | none => r.result.rawResponse } }

/-- `pushRecordSchema.methods.markAsFailed`: set status to `failed`, record
`completedAt`, derive `duration`, and store the error information. -/
noncomputable def markAsFailed (now : ℝ) (errorCode errorMessage : Str)
    (rawResponse : Option Str) (r : PushRecord) : PushRecord :=
  let completedAt := now
  let duration :=
    match r.timing.startedAt with
    | some s => some (completedAt - s)
    | none => r.timing.duration
  { r with
    status := PRStatus.failed
    timing := { r.timing with completedAt := some completedAt, duration := duration }
    result := { r.result with
      errorCode := some errorCode
      errorMessage := some errorMessage
      rawResponse := match rawResponse with
        | some x => some x
        | none => r.result.rawResponse } }

/-- `pushRecordSchema.methods.addRetryAttempt`: increment `retryCount` and
append one history entry stamped with the new count. -/
def addRetryAttempt (now : ℝ) (error : Str) (duration : ℝ)
    (r : PushRecord) : PushRecord :=
  let newCount := r.pushConfig.retryCount + 1
  { r with
    pushConfig := { r.pushConfig with retryCount := newCount }
    retryHistory := r.retryHistory ++
      [{ attempt := newCount, timestamp := now, error := error, duration := duration }] }

/-- `pushRecordSchema.methods.canRetry`:
`retryCount < maxRetries && status === 'failed'`. -/
def canRetry (r : PushRecord) : Bool :=
  decide (r.pushConfig.retryCount < r.pushConfig.maxRetries) &&
    decide (r.status = PRStatus.failed)

/-- `pushRecordSchema.methods.getNextRetryTime`: `null` unless `canRetry()`;
otherwise exponential backoff `retryDelay·1000 · 2^(retryCount-1)` plus the
`Math.random()*1000` jitter, which is passed in as the oracle `jitter`.
The exponent is an integer (`Math.pow` gives `2^(-1) = 1/2` at count 0). -/
noncomputable def getNextRetryTime (now jitter : ℝ) (r : PushRecord) : Option ℝ :=
  if !canRetry r then none
  else
    let baseDelay : ℝ := (r.pushConfig.retryDelay : ℝ) * 1000
    let exponentialDelay := baseDelay * (2 : ℝ) ^ ((r.pushConfig.retryCount : ℤ) - 1)
    some (now + exponentialDelay + jitter)

/-- Kind of user interaction reported to `updateInteraction`
(`'read' | 'click' | 'feedback'`). -/
inductive InteractionKind where
  | read
  | click
  | feedback
deriving DecidableEq

/-- `pushRecordSchema.methods.updateInteraction`: record read/click/feedback
data; never touches the delivery status or retry bookkeeping. -/
def updateInteraction (now : ℝ) (kind : InteractionKind) (data : Option Str)
    (r : PushRecord) : PushRecord :=
  match kind with
  | InteractionKind.read =>
      { r with interaction :=
        { r.interaction with isRead := true, readAt := some now } }
  | InteractionKind.click =>
      { r with interaction :=
        { r.interaction with
          isClicked := true
          clickedAt := some now
          clickCount := r.interaction.clickCount + 1 } }
  | InteractionKind.feedback =>
      { r with interaction :=
        { r.interaction with feedback := data, feedbackAt := some now } }

/-! ### Helper lemmas -/

/-- `leadMatch hay needle` holds exactly when `needle` is an initial segment
of `hay`. -/
theorem leadMatch_iff (needle hay : Str) :
    leadMatch hay needle = true ↔ ∃ q, hay = needle ++ q := by
  induction needle generalizing hay with
  | nil => simp [leadMatch]
  | cons d ds ih =>
    cases hay with
    | nil => simp [leadMatch]
    | cons c cs =>
      simp only [leadMatch, Bool.and_eq_true, beq_iff_eq, ih, List.cons_append,
        List.cons.injEq]
      constructor
      · rintro ⟨rfl, q, rfl⟩
        exact ⟨q, rfl, rfl⟩
      · rintro ⟨q, rfl, rfl⟩
        exact ⟨rfl, q, rfl⟩

/-- `strContains hay needle` holds exactly when `needle` occurs contiguously
inside `hay`. -/
theorem strContains_iff (needle hay : Str) :
    strContains hay needle = true ↔ ∃ p q, hay = p ++ needle ++ q := by
  induction hay with
  | nil =>
    simp only [strContains, List.isEmpty_iff]
    constructor
    · rintro rfl
      exact ⟨[], [], rfl⟩
    · rintro ⟨p, q, h⟩
      rcases List.append_eq_nil.mp (List.append_eq_nil.mp h.symm).1 with ⟨-, h1⟩
      exact h1
  | cons c t ih =>
    simp only [strContains, Bool.or_eq_true, leadMatch_iff, ih]
    constructor
    · rintro (⟨q, h⟩ | ⟨p, q, h⟩)
      · exact ⟨[], q, by simpa using h⟩
      · exact ⟨c :: p, q, by simp [h]⟩
    · rintro ⟨p, q, h⟩
      cases p with
      | nil =>
        exact Or.inl ⟨q, by simpa using h⟩
      | cons a as =>
        simp only [List.cons_append] at h
        obtain ⟨rfl, h2⟩ := List.cons_eq_cons.mp h
        exact Or.inr ⟨as, q, h2⟩

/-- `round` is monotone on the reals. -/
theorem round_mono_of_le {x y : ℝ} (h : x ≤ y) : round x ≤ round y := by
  rw [round_eq, round_eq]
  exact Int.floor_le_floor (by linarith)

/-- `round` of a non-negative real is non-negative. -/
theorem round_nonneg_of_nonneg {x : ℝ} (h : 0 ≤ x) : 0 ≤ round x := by
  rw [round_eq]
  refine Int.le_floor.mpr ?_
  push_cast
  linarith

/-- The age-independent factor of the hotness score: weighted engagement,
author-influence multiplier, and the verified boost. -/
noncomputable def hotnessCoeff (t : Tweet) : ℝ :=
  ((t.public_metrics.like_count : ℝ) * 1 +
   (t.public_metrics.retweet_count : ℝ) * 2 +
   (t.public_metrics.reply_count : ℝ) * 1.5 +
   (t.public_metrics.quote_count : ℝ) * 1.8) *
  (1 + min ((t.author.followers_count : ℝ) / 10000) 5 * 0.1) *
  (if t.author.verified then (1.2 : ℝ) else 1)

/-- `calculateHotnessScore` factors as the age-independent coefficient times
the exponential age decay, rounded. -/
theorem hotness_eq (now : ℝ) (t : Tweet) :
    calculateHotnessScore now t =
      round (hotnessCoeff t * Real.exp (-(ageInHours now t) / 24)) := by
  unfold calculateHotnessScore hotnessCoeff
  cases hv : t.author.verified <;> simp [hv]

/-- The age-independent coefficient is non-negative. -/
theorem hotnessCoeff_nonneg (t : Tweet) : 0 ≤ hotnessCoeff t := by
  unfold hotnessCoeff
  have hw : 0 ≤ min ((t.author.followers_count : ℝ) / 10000) 5 :=
    le_min (by positivity) (by norm_num)
  have hb : (0 : ℝ) ≤
      (t.public_metrics.like_count : ℝ) * 1 +
      (t.public_metrics.retweet_count : ℝ) * 2 +
      (t.public_metrics.reply_count : ℝ) * 1.5 +
      (t.public_metrics.quote_count : ℝ) * 1.8 := by positivity
  cases t.author.verified <;> simp <;> nlinarith

/-- The hotness score is non-negative at every evaluation instant. -/
theorem hotness_nonneg (now : ℝ) (t : Tweet) :
    0 ≤ calculateHotnessScore now t := by
  rw [hotness_eq]
  exact round_nonneg_of_nonneg
    (mul_nonneg (hotnessCoeff_nonneg t) (Real.exp_pos _).le)

/-- The hotness score never increases as the evaluation instant moves
forward. -/
theorem hotness_antitone (t : Tweet) {now1 now2 : ℝ} (h : now1 ≤ now2) :
    calculateHotnessScore now2 t ≤ calculateHotnessScore now1 t := by
  rw [hotness_eq, hotness_eq]
  refine round_mono_of_le ?_
  refine mul_le_mul_of_nonneg_left ?_ (hotnessCoeff_nonneg t)
  refine Real.exp_le_exp.mpr ?_
  unfold ageInHours
  norm_num
  linarith

/-! ### Concrete sample data -/

/-- A filter block with every field at its least restrictive value. -/
def emptyFilters : Filters :=
  { languages := []
    minLikes := 0
    minRetweets := 0
    minReplies := 0
    hasMedia := ReqMode.any
    hasLinks := ReqMode.any
    excludeKeywords := [] }

/-- Subscription with keyword `AI` and exclude keyword `spam`. -/
def exampleSubAI : Subscription :=
  { keywords := ["AI".toList]
    filters := { emptyFilters with excludeKeywords := ["spam".toList] }
    activeHours := { start := 9, endH := 22 } }

/-- Subscription with the overnight window 22→6. -/
def exampleSubNight : Subscription :=
  { keywords := ["AI".toList]
    filters := emptyFilters
    activeHours := { start := 22, endH := 6 } }

/-- Subscription with the same-day window 9→17. -/
def exampleSubDay : Subscription :=
  { keywords := ["AI".toList]
    filters := emptyFilters
    activeHours := { start := 9, endH := 17 } }

/-- A tweet with no engagement at all, created at epoch instant 0. -/
def tweetZero : Tweet :=
  { text := "hello world from nowhere".toList
    author := { verified := false, followers_count := 0 }
    public_metrics :=
      { retweet_count := 0, like_count := 0, reply_count := 0, quote_count := 0 }
    metadata := { created_at := 0, lang := "en".toList }
    attachments := { media_keys := [] }
    entities := { urls := [] } }

/-- A tweet with 100 likes and nothing else, created at epoch instant 0. -/
def tweet100 : Tweet :=
  { text := "AI breakthrough of the day".toList
    author := { verified := false, followers_count := 0 }
    public_metrics :=
      { retweet_count := 0, like_count := 100, reply_count := 0, quote_count := 0 }
    metadata := { created_at := 0, lang := "en".toList }
    attachments := { media_keys := [] }
    entities := { urls := [] } }

/-- A Japanese-language tweet passing every engagement/media/link check. -/
def tweetJa : Tweet :=
  { text := "AI news".toList
    author := { verified := false, followers_count := 0 }
    public_metrics :=
      { retweet_count := 0, like_count := 0, reply_count := 0, quote_count := 0 }
    metadata := { created_at := 0, lang := "ja".toList }
    attachments := { media_keys := [] }
    entities := { urls := [] } }

/-- Subscription whose allowed-language set is the singleton `en`. -/
def subEnOnly : Subscription :=
  { keywords := ["AI".toList]
    filters := { emptyFilters with languages := ["en".toList] }
    activeHours := { start := 9, endH := 22 } }

/-! ### Claim theorems C1–C3 -/

/-- C1: for every item and time `now`, `calculateHotnessScore` returns
`round(base · influence · verifiedMultiplier · decay)` with
`base = 1·likes + 2·retweets + 1.5·replies + 1.8·quotes`,
`influence = 1 + 0.1·min(followers/10000, 5)`, `verifiedMultiplier = 1.2` for
verified authors and `1` otherwise, and `decay = exp(-ageHours/24)` where
`ageHours` is the hours elapsed since the creation timestamp. -/
theorem C1_hotness_score_formula (now : ℝ) (t : Tweet) :
    calculateHotnessScore now t =
      round ((1 * (t.public_metrics.like_count : ℝ) +
              2 * (t.public_metrics.retweet_count : ℝ) +
              1.5 * (t.public_metrics.reply_count : ℝ) +
              1.8 * (t.public_metrics.quote_count : ℝ)) *
             (1 + 0.1 * min ((t.author.followers_count : ℝ) / 10000) 5) *
             (if t.author.verified then 1.2 else 1) *
             Real.exp (-(ageInHours now t) / 24)) := by
  rw [hotness_eq]
  congr 1
  unfold hotnessCoeff
  by_cases hv : t.author.verified = true
  · rw [if_pos hv]
    ring
  · rw [if_neg hv]
    ring

/-- C2: `matchesKeywords` is true iff the lower-cased text contains some
required keyword (lower-cased) as a substring and no exclude keyword; with
keywords `["AI"]` and exclude keywords `["spam"]`, the text
`"New AI breakthrough"` matches and `"AI spam deal"` does not. -/
theorem C2_matchesKeywords_characterization :
    (∀ (s : Subscription) (text : Str),
      matchesKeywords s text = true ↔
        ((∃ k ∈ s.keywords,
            ∃ p q, toLowerStr text = p ++ toLowerStr k ++ q) ∧
         ∀ e ∈ s.filters.excludeKeywords,
           ¬ ∃ p q, toLowerStr text = p ++ toLowerStr e ++ q)) ∧
    matchesKeywords exampleSubAI ("New AI breakthrough".toList) = true ∧
    matchesKeywords exampleSubAI ("AI spam deal".toList) = false := by
  refine ⟨?_, by decide, by decide⟩
  intro s text
  have hEq : matchesKeywords s text =
      (if !(s.keywords.any fun keyword =>
              strContains (toLowerStr text) (toLowerStr keyword)) then false
       else !(s.filters.excludeKeywords.any fun keyword =>
              strContains (toLowerStr text) (toLowerStr keyword))) := rfl
  rw [hEq]
  rcases h1 : s.keywords.any
      (fun keyword => strContains (toLowerStr text) (toLowerStr keyword)) with - | -
  · rw [Bool.not_false, if_pos rfl]
    constructor
    · intro hfalse
      exact absurd hfalse Bool.false_ne_true
    · rintro ⟨⟨k, hkmem, hsub⟩, -⟩
      rw [List.any_eq_false] at h1
      exact absurd ((strContains_iff _ _).mpr hsub) (by simpa using h1 k hkmem)
  · rw [Bool.not_true, if_neg Bool.false_ne_true, Bool.not_eq_true']
    rw [List.any_eq_false]
    constructor
    · intro hex
      refine ⟨?_, ?_⟩
      · rw [List.any_eq_true] at h1
        rcases h1 with ⟨k, hkmem, hsub⟩
        exact ⟨k, hkmem, (strContains_iff _ _).mp hsub⟩
      · intro e hemem hsub
        exact absurd ((strContains_iff _ _).mpr hsub) (by simpa using hex e hemem)
    · rintro ⟨-, hex⟩ e hemem
      simpa [strContains_iff] using hex e hemem

/-- C3: `isInActiveHours` is true on a same-day window (`start ≤ end`) iff
`start ≤ hour ≤ end`, and on an overnight window (`start > end`) iff
`hour ≥ start` or `hour ≤ end`; with `start=22, end=6` it is true at hours 23
and 3 and false at 10, and with `start=9, end=17` it is false at 8, true at 9
and 17, and false at 18. -/
theorem C3_active_hours_characterization :
    (∀ (s : Subscription) (hour : ℕ),
      isInActiveHours s hour = true ↔
        (if s.activeHours.start ≤ s.activeHours.endH
         then s.activeHours.start ≤ hour ∧ hour ≤ s.activeHours.endH
         else s.activeHours.start ≤ hour ∨ hour ≤ s.activeHours.endH)) ∧
    isInActiveHours exampleSubNight 23 = true ∧
    isInActiveHours exampleSubNight 3 = true ∧
    isInActiveHours exampleSubNight 10 = false ∧
    isInActiveHours exampleSubDay 8 = false ∧
    isInActiveHours exampleSubDay 9 = true ∧
    isInActiveHours exampleSubDay 17 = true ∧
    isInActiveHours exampleSubDay 18 = false := by
  refine ⟨?_, by decide, by decide, by decide, by decide, by decide, by decide,
    by decide⟩
  intro s hour
  by_cases h : s.activeHours.start ≤ s.activeHours.endH <;>
    simp [isInActiveHours, h]

/-! ### Claim theorems C7, C8, C9 -/

/-- C7 counterexample: for the zero-engagement item `tweetZero`, the score at
age 1 hour equals the score at age 0 hours (both are 0), so the rounded score
is not strictly decreasing in `ageHours`. -/
theorem C7_zero_engagement_not_strict :
    ageInHours 0 tweetZero = 0 ∧
    ageInHours 3600000 tweetZero = 1 ∧
    calculateHotnessScore 3600000 tweetZero = calculateHotnessScore 0 tweetZero ∧
    ¬ calculateHotnessScore 3600000 tweetZero < calculateHotnessScore 0 tweetZero := by
  have hc : hotnessCoeff tweetZero = 0 := by
    simp [hotnessCoeff, tweetZero]
  have h0 : ∀ x : ℝ, calculateHotnessScore x tweetZero = 0 := by
    intro x
    rw [hotness_eq, hc, zero_mul, round_zero]
  refine ⟨?_, ?_, ?_, ?_⟩
  · simp [ageInHours, tweetZero]
  · norm_num [ageInHours, tweetZero]
  · rw [h0, h0]
  · rw [h0, h0]
    exact lt_irrefl 0

/-- C7 (amended): for every item, `calculateHotnessScore` is non-negative and
weakly decreasing in the evaluation instant (equivalently in `ageHours`):
a greater age never yields a greater rounded score.  Strict decrease fails
because of rounding and because zero-engagement items always score 0. -/
theorem C7_score_nonneg_and_antitone (t : Tweet) (now1 now2 : ℝ)
    (h : now1 ≤ now2) :
    0 ≤ calculateHotnessScore now1 t ∧
    calculateHotnessScore now2 t ≤ calculateHotnessScore now1 t :=
  ⟨hotness_nonneg now1 t, hotness_antitone t h⟩

/-- Witness for C7: the amended statement instantiated at `tweet100` between
instants 0 and 1 hour. -/
theorem C7_score_nonneg_and_antitone_witness :
    (0 : ℝ) ≤ 3600000 ∧
    (0 ≤ calculateHotnessScore 0 tweet100 ∧
     calculateHotnessScore 3600000 tweet100 ≤ calculateHotnessScore 0 tweet100) :=
  ⟨by norm_num, C7_score_nonneg_and_antitone tweet100 0 3600000 (by norm_num)⟩

/-- C8 counterexample: `subEnOnly` allows only language `en`, yet the
Japanese-language tweet `tweetJa` passes `matchesFilters` — the function
never checks `filters.languages`. -/
theorem C8_language_not_checked :
    subEnOnly.filters.languages ≠ [] ∧
    tweetJa.metadata.lang ∉ subEnOnly.filters.languages ∧
    matchesFilters subEnOnly tweetJa = true := by
  refine ⟨by decide, by decide, by decide⟩

/-- C8 (amended): `matchesFilters` is the conjunction of the engagement
minimums and the media/link requirement modes only; it does not consult
`filters.languages`, so its value is invariant under replacing the
allowed-language set. -/
theorem C8_matchesFilters_no_language_conjunct (s : Subscription) (t : Tweet)
    (langs : List Str) :
    matchesFilters { s with filters := { s.filters with languages := langs } } t =
      matchesFilters s t ∧
    (matchesFilters s t = true ↔
      (s.filters.minLikes ≤ t.public_metrics.like_count ∧
       s.filters.minRetweets ≤ t.public_metrics.retweet_count ∧
       s.filters.minReplies ≤ t.public_metrics.reply_count ∧
       (s.filters.hasMedia = ReqMode.required →
         0 < t.attachments.media_keys.length) ∧
       (s.filters.hasMedia = ReqMode.excluded →
         t.attachments.media_keys.length = 0) ∧
       (s.filters.hasLinks = ReqMode.required →
         0 < t.entities.urls.length) ∧
       (s.filters.hasLinks = ReqMode.excluded →
         t.entities.urls.length = 0))) := by
  constructor
  · rfl
  · constructor
    · intro hmf
      simp only [matchesFilters] at hmf
      split_ifs at hmf with h1 h2 h3 h4 h5 h6 h7
      refine ⟨by omega, by omega, by omega, ?_, ?_, ?_, ?_⟩
      · intro hreq
        by_contra hlen
        exact h4 (by simp [hreq, hlen])
      · intro hexc
        by_contra hlen
        have hpos : 0 < t.attachments.media_keys.length := by omega
        exact h5 (by simp [hexc, hpos])
      · intro hreq
        by_contra hlen
        exact h6 (by simp [hreq, hlen])
      · intro hexc
        by_contra hlen
        have hpos : 0 < t.entities.urls.length := by omega
        exact h7 (by simp [hexc, hpos])
    · rintro ⟨hl1, hl2, hl3, hm1, hm2, hk1, hk2⟩
      have n1 : ¬ t.public_metrics.like_count < s.filters.minLikes := by omega
      have n2 : ¬ t.public_metrics.retweet_count < s.filters.minRetweets := by
        omega
      have n3 : ¬ t.public_metrics.reply_count < s.filters.minReplies := by omega
      have c4 : (decide (s.filters.hasMedia = ReqMode.required) &&
          !decide (0 < t.attachments.media_keys.length)) = false := by
        cases hr : s.filters.hasMedia
        · simp [hr]
        · have hlen := hm1 hr
          simp [hr, hlen]
        · simp [hr]
      have c5 : (decide (s.filters.hasMedia = ReqMode.excluded) &&
          decide (0 < t.attachments.media_keys.length)) = false := by
        cases hr : s.filters.hasMedia
        · simp [hr]
        · simp [hr]
        · have hlen := hm2 hr
          simp [hr, hlen]
      have c6 : (decide (s.filters.hasLinks = ReqMode.required) &&
          !decide (0 < t.entities.urls.length)) = false := by
        cases hr : s.filters.hasLinks
        · simp [hr]
        · have hlen := hk1 hr
          simp [hr, hlen]
        · simp [hr]
      have c7 : (decide (s.filters.hasLinks = ReqMode.excluded) &&
          decide (0 < t.entities.urls.length)) = false := by
        cases hr : s.filters.hasLinks
        · simp [hr]
        · simp [hr]
        · have hlen := hk2 hr
          simp [hr, hlen]
      simp only [matchesFilters]
      rw [if_neg n1, if_neg n2, if_neg n3, c4, if_neg Bool.false_ne_true, c5,
        if_neg Bool.false_ne_true, c6, if_neg Bool.false_ne_true, c7,
        if_neg Bool.false_ne_true]

/-- C9 counterexample: the future-dated evaluation (`now` 24 hours before the
creation instant of `tweet100`) does not yield the age-0 score 100: the decay
factor `exp(1) > 1` pushes the score to at least 200. -/
theorem C9_future_dated_not_clamped :
    calculateHotnessScore 0 tweet100 = 100 ∧
    200 ≤ calculateHotnessScore (-86400000) tweet100 ∧
    calculateHotnessScore (-86400000) tweet100 ≠ calculateHotnessScore 0 tweet100 := by
  have hc : hotnessCoeff tweet100 = 100 := by
    norm_num [hotnessCoeff, tweet100]
  have h0 : calculateHotnessScore 0 tweet100 = 100 := by
    rw [hotness_eq, hc]
    have hage : ageInHours 0 tweet100 = 0 := by
      simp [ageInHours, tweet100]
    rw [hage]
    norm_num [Real.exp_zero]
  have h2 : 200 ≤ calculateHotnessScore (-86400000) tweet100 := by
    rw [hotness_eq, hc]
    have hage : ageInHours (-86400000) tweet100 = -24 := by
      norm_num [ageInHours, tweet100]
    rw [hage]
    have hone : -(-24 : ℝ) / 24 = 1 := by norm_num
    rw [hone]
    have hexp : (2 : ℝ) ≤ Real.exp 1 := by
      have := Real.add_one_le_exp 1
      linarith
    rw [round_eq]
    refine Int.le_floor.mpr ?_
    push_cast
    nlinarith
  refine ⟨h0, h2, ?_⟩
  rw [h0]
  omega

/-- C9 (amended): `calculateHotnessScore` does not clamp the age: for an item
whose creation timestamp lies in the future relative to `now`, the decay
factor `exp(-ageHours/24)` exceeds 1 and the score is at least the score the
item gets at age exactly 0. -/
theorem C9_no_clamp_decay_exceeds_one (t : Tweet) (now : ℝ)
    (h : now < t.metadata.created_at) :
    1 < Real.exp (-(ageInHours now t) / 24) ∧
    calculateHotnessScore t.metadata.created_at t ≤ calculateHotnessScore now t := by
  constructor
  · rw [Real.one_lt_exp_iff]
    unfold ageInHours
    have hlt : (now - t.metadata.created_at) / (1000 * 60 * 60) < 0 :=
      div_neg_of_neg_of_pos (by linarith) (by norm_num)
    linarith
  · exact hotness_antitone t h.le

/-- Witness for C9: the amended statement instantiated at `tweet100`
(created at instant 0) evaluated 24 hours before creation. -/
theorem C9_no_clamp_decay_exceeds_one_witness :
    ((-86400000 : ℝ) < tweet100.metadata.created_at) ∧
    (1 < Real.exp (-(ageInHours (-86400000) tweet100) / 24) ∧
     calculateHotnessScore tweet100.metadata.created_at tweet100 ≤
       calculateHotnessScore (-86400000) tweet100) :=
  ⟨by norm_num [tweet100],
   C9_no_clamp_decay_exceeds_one tweet100 (-86400000) (by norm_num [tweet100])⟩

/-! ### Push record sample data and claim theorems C4, C5, C6, C10 -/

/-- A timing block with no recorded instants. -/
def emptyTiming : Timing :=
  { scheduledAt := none, startedAt := none, completedAt := none
    duration := none, queueTime := none }

/-- A result block with no recorded provider data. -/
def emptyResult : PRResult :=
  { messageId := none, deliveryTime := none, responseTime := none
    errorCode := none, errorMessage := none, rawResponse := none }

/-- An interaction block with no recorded interactions. -/
def emptyInteraction : Interaction :=
  { isRead := false, readAt := none, isClicked := false, clickedAt := none
    clickCount := 0, feedback := none, feedbackAt := none }

/-- A freshly created push record with the schema defaults
(`retryCount 0`, `maxRetries 3`, `retryDelay 300`). -/
def recBase : PushRecord :=
  { status := PRStatus.pending
    pushConfig := { retryCount := 0, maxRetries := 3, retryDelay := 300 }
    timing := emptyTiming
    result := emptyResult
    interaction := emptyInteraction
    retryHistory := [] }

/-- A failed push record with `retryCount 2`, `maxRetries 3`,
`retryDelay 5 s`. -/
def recRetry2 : PushRecord :=
  { recBase with
    status := PRStatus.failed
    pushConfig := { retryCount := 2, maxRetries := 3, retryDelay := 5 } }

/-- `recBase` after three `markAsFailed` + `addRetryAttempt` cycles. -/
noncomputable def afterThreeCycles : PushRecord :=
  addRetryAttempt 6 ("timeout".toList) 0
    (markAsFailed 5 ("E1".toList) ("send failed".toList) none
      (addRetryAttempt 4 ("timeout".toList) 0
        (markAsFailed 3 ("E1".toList) ("send failed".toList) none
          (addRetryAttempt 2 ("timeout".toList) 0
            (markAsFailed 1 ("E1".toList) ("send failed".toList) none recBase)))))

/-- C4 counterexample: starting from the schema-default record, a first
`markAsSuccess` at instant 1000 reaches the `success` state with
`completedAt = 1000`; a second `markAsSuccess` at instant 2000 is neither
rejected nor a no-op — it silently overwrites `completedAt` with 2000. -/
theorem C4_second_markAsSuccess_overwrites :
    (markAsSuccess 1000 ("m1".toList) 0 none recBase).status =
      PRStatus.success ∧
    (markAsSuccess 1000 ("m1".toList) 0 none recBase).timing.completedAt =
      some 1000 ∧
    (markAsSuccess 2000 ("m2".toList) 0 none
        (markAsSuccess 1000 ("m1".toList) 0 none recBase)).timing.completedAt =
      some 2000 ∧
    some (2000 : ℝ) ≠ some (1000 : ℝ) := by
  refine ⟨rfl, rfl, rfl, ?_⟩
  simp only [ne_eq, Option.some.injEq]
  norm_num

/-- C4 (amended): `markAsSuccess` carries no terminal-state guard: from every
state — the terminal `success` state included — it unconditionally sets the
status to `success` and overwrites `timing.completedAt` with the call's
instant. -/
theorem C4_markAsSuccess_always_overwrites (now : ℝ) (messageId : Str)
    (responseTime : ℝ) (rawResponse : Option Str) (r : PushRecord) :
    (markAsSuccess now messageId responseTime rawResponse r).status =
      PRStatus.success ∧
    (markAsSuccess now messageId responseTime rawResponse r).timing.completedAt =
      some now :=
  ⟨rfl, rfl⟩

/-- C5: when `canRetry()` is false, `getNextRetryTime` returns `null`; when it
is true it returns `now + baseDelay·2^(retryCount-1) + jitter` with `baseDelay`
the configured `retryDelay` in seconds and the jitter drawn from `[0, 1s)`;
for `retryCount = 2` and `baseDelay = 5 s` the returned instant lies in
`[10s, 11s)` after `now`. -/
theorem C5_next_retry_backoff (now j : ℝ) (r : PushRecord)
    (hj0 : 0 ≤ j) (hj1 : j < 1000) :
    (canRetry r = false → getNextRetryTime now j r = none) ∧
    (canRetry r = true →
      getNextRetryTime now j r =
        some (now + (r.pushConfig.retryDelay : ℝ) * 1000 *
                (2 : ℝ) ^ ((r.pushConfig.retryCount : ℤ) - 1) + j)) ∧
    (r.status = PRStatus.failed → r.pushConfig.retryCount = 2 →
      r.pushConfig.retryDelay = 5 → 2 < r.pushConfig.maxRetries →
      ∃ tm, getNextRetryTime now j r = some tm ∧
        now + 10000 ≤ tm ∧ tm < now + 11000) := by
  refine ⟨fun h => ?_, fun h => ?_, fun hs hc hd hm => ?_⟩
  · simp [getNextRetryTime, h]
  · simp [getNextRetryTime, h]
  · have hcr : canRetry r = true := by
      simp only [canRetry, Bool.and_eq_true, decide_eq_true_eq]
      exact ⟨by omega, hs⟩
    refine ⟨now + (5 : ℝ) * 1000 * (2 : ℝ) ^ ((2 : ℤ) - 1) + j, ?_, ?_, ?_⟩
    · simp [getNextRetryTime, hcr, hc, hd]
    · norm_num
      linarith
    · norm_num
      linarith

/-- Witness for C5: the statement instantiated at `recRetry2`
(`retryCount 2`, `retryDelay 5 s`, failed) with `now = 0` and jitter 0. -/
theorem C5_next_retry_backoff_witness :
    ((0 : ℝ) ≤ 0 ∧ (0 : ℝ) < 1000) ∧
    ((canRetry recRetry2 = false → getNextRetryTime 0 0 recRetry2 = none) ∧
     (canRetry recRetry2 = true →
       getNextRetryTime 0 0 recRetry2 =
         some (0 + (recRetry2.pushConfig.retryDelay : ℝ) * 1000 *
                 (2 : ℝ) ^ ((recRetry2.pushConfig.retryCount : ℤ) - 1) + 0)) ∧
     (recRetry2.status = PRStatus.failed →
       recRetry2.pushConfig.retryCount = 2 →
       recRetry2.pushConfig.retryDelay = 5 →
       2 < recRetry2.pushConfig.maxRetries →
       ∃ tm, getNextRetryTime 0 0 recRetry2 = some tm ∧
         (0 : ℝ) + 10000 ≤ tm ∧ tm < (0 : ℝ) + 11000)) :=
  ⟨⟨le_refl 0, by norm_num⟩,
   C5_next_retry_backoff 0 0 recRetry2 (le_refl 0) (by norm_num)⟩

/-- C6: `canRetry()` is true exactly when the status is `failed` and
`retryCount < maxRetries`; after three `markAsFailed` + `addRetryAttempt`
cycles on a record with `maxRetries = 3`, `canRetry()` is false and
`getNextRetryTime` returns `null` for every instant and jitter. -/
theorem C6_canRetry_iff_and_exhaustion :
    (∀ r : PushRecord,
      canRetry r = true ↔
        (r.status = PRStatus.failed ∧
         r.pushConfig.retryCount < r.pushConfig.maxRetries)) ∧
    afterThreeCycles.pushConfig.retryCount = 3 ∧
    afterThreeCycles.pushConfig.maxRetries = 3 ∧
    afterThreeCycles.status = PRStatus.failed ∧
    canRetry afterThreeCycles = false ∧
    (∀ now j : ℝ, getNextRetryTime now j afterThreeCycles = none) := by
  have hcr : canRetry afterThreeCycles = false := rfl
  refine ⟨?_, rfl, rfl, rfl, hcr, ?_⟩
  · intro r
    unfold canRetry
    rw [Bool.and_eq_true, decide_eq_true_eq, decide_eq_true_eq, and_comm]
  · intro now j
    simp [getNextRetryTime, hcr]

/-- C10: `retryCount` equals the length of `retryHistory` and the equality is
preserved by every lifecycle method: `addRetryAttempt` increments the counter
by exactly one and appends exactly one entry stamped with the new count, while
`markAsStarted`, `markAsSuccess`, `markAsFailed` and `updateInteraction` touch
neither field. -/
theorem C10_retryCount_matches_history (r : PushRecord) (now rt d : ℝ)
    (e msg ec em : Str) (raw : Option Str) (k : InteractionKind)
    (dat : Option Str)
    (h : r.pushConfig.retryCount = r.retryHistory.length) :
    ((addRetryAttempt now e d r).pushConfig.retryCount =
        r.pushConfig.retryCount + 1 ∧
     (addRetryAttempt now e d r).retryHistory =
        r.retryHistory ++
          [{ attempt := r.pushConfig.retryCount + 1, timestamp := now,
             error := e, duration := d }] ∧
     (addRetryAttempt now e d r).pushConfig.retryCount =
        (addRetryAttempt now e d r).retryHistory.length) ∧
    ((markAsStarted now r).pushConfig.retryCount = r.pushConfig.retryCount ∧
     (markAsStarted now r).retryHistory = r.retryHistory) ∧
    ((markAsSuccess now msg rt raw r).pushConfig.retryCount =
        r.pushConfig.retryCount ∧
     (markAsSuccess now msg rt raw r).retryHistory = r.retryHistory) ∧
    ((markAsFailed now ec em raw r).pushConfig.retryCount =
        r.pushConfig.retryCount ∧
     (markAsFailed now ec em raw r).retryHistory = r.retryHistory) ∧
    ((updateInteraction now k dat r).pushConfig.retryCount =
        r.pushConfig.retryCount ∧
     (updateInteraction now k dat r).retryHistory = r.retryHistory) := by
  refine ⟨⟨rfl, rfl, ?_⟩, ⟨rfl, rfl⟩, ⟨rfl, rfl⟩, ⟨rfl, rfl⟩, ?_⟩
  · simp [addRetryAttempt, h]
  · cases k <;> exact ⟨rfl, rfl⟩

/-- Witness for C10: the invariant statement instantiated at the
schema-default record `recBase` (0 retries, empty history). -/
theorem C10_retryCount_matches_history_witness :
    recBase.pushConfig.retryCount = recBase.retryHistory.length ∧
    (((addRetryAttempt 1 ("err".toList) 0 recBase).pushConfig.retryCount =
        recBase.pushConfig.retryCount + 1 ∧
      (addRetryAttempt 1 ("err".toList) 0 recBase).retryHistory =
        recBase.retryHistory ++
          [{ attempt := recBase.pushConfig.retryCount + 1, timestamp := 1,
             error := "err".toList, duration := 0 }] ∧
      (addRetryAttempt 1 ("err".toList) 0 recBase).pushConfig.retryCount =
        (addRetryAttempt 1 ("err".toList) 0 recBase).retryHistory.length) ∧
     ((markAsStarted 1 recBase).pushConfig.retryCount =
        recBase.pushConfig.retryCount ∧
      (markAsStarted 1 recBase).retryHistory = recBase.retryHistory) ∧
     ((markAsSuccess 1 ("m".toList) 0 none recBase).pushConfig.retryCount =
        recBase.pushConfig.retryCount ∧
      (markAsSuccess 1 ("m".toList) 0 none recBase).retryHistory =
        recBase.retryHistory) ∧
     ((markAsFailed 1 ("E".toList) ("boom".toList) none
          recBase).pushConfig.retryCount = recBase.pushConfig.retryCount ∧
      (markAsFailed 1 ("E".toList) ("boom".toList) none recBase).retryHistory =
        recBase.retryHistory) ∧
     ((updateInteraction 1 InteractionKind.read none
          recBase).pushConfig.retryCount = recBase.pushConfig.retryCount ∧
      (updateInteraction 1 InteractionKind.read none recBase).retryHistory =
        recBase.retryHistory)) :=
  ⟨rfl,
   C10_retryCount_matches_history recBase 1 0 0 ("err".toList) ("m".toList)
     ("E".toList) ("boom".toList) none InteractionKind.read none rfl⟩

end XmsgBot
